import Mathlib

/-!
Verification of the LabValues pipeline (`analyzeSyntheticLabValues.py`).

The script is a linear pipeline over an in-memory table of lab
observations: filter rows by LOINC code and positive value, chunk the
filtered rows into fixed-size windows, take the mean of each window,
serialise the resulting records to CSV, render a kernel-density image of
the means, and pack the four resulting blobs into a zip archive.

Shallow embedding choices:
  * A data frame is a list of rows in index order together with its
    column-name list.  Each row carries its pandas index `idx` (assigned
    positionally at load time), its `Observation.code` string and its
    `Observation.value`; all remaining (unused) columns are kept as an
    opaque list of cell strings.  Values are modelled as rationals: the
    spec treats them as real numbers and no claim depends on binary
    floating point rounding.
  * `filter_lab_data` keeps the `value_col` parameter implicit: every
    call site passes the single value column `Observation.value`, which
    the embedding reads through the `value` field.
  * The renderer (seaborn KDE plus matplotlib rasterisation) is kept
    abstract as an oracle from the plot title, axis label and the list
    of group means to PNG bytes; its internal nondeterminism is exactly
    what the oracle quantification captures.  Blob contents are
    modelled as strings of bytes.
  * `df.sort_index()` is modelled as a stable insertion sort on `idx`.
-/

namespace LabValues

/-- One observation row: pandas index, `Observation.code`,
`Observation.value`, and the remaining unused cells. -/
structure Row where
  idx : ℕ
  code : String
  value : ℚ
  rest : List String
deriving DecidableEq

/-- A pandas data frame: its column names and its rows in index order. -/
structure DataFrame where
  cols : List String
  rows : List Row
deriving DecidableEq

/-- `filter_lab_data(df, loinc_codes, value_col)`:
`df[df["Observation.code"].isin(loinc_codes)]` followed by
`filtered[filtered[value_col] > 0]`.  Boolean-mask selection keeps the
column set and the relative row order and copies the data. -/
def filter_lab_data (df : DataFrame) (loinc_codes : List String) : DataFrame :=
  let filtered : DataFrame :=
    { cols := df.cols, rows := df.rows.filter (fun r => decide (r.code ∈ loinc_codes)) }
  { cols := filtered.cols
    rows := filtered.rows.filter (fun r => decide (0 < r.value)) }

/-- `df.sort_index()`: stable sort of the rows by pandas index. -/
def sortIndex (rows : List Row) : List Row :=
  List.insertionSort (fun a b => a.idx ≤ b.idx) rows

/-- The row windows visited by
`for start in range(0, len(df), rows_per_group): chunk = df.iloc[start:start+rows_per_group]`:
`range(0, n, W)` enumerates the starts `k * W` for `k < ceil(n / W)`, and
`df.iloc[start:start+W]` is the slice dropping `start` rows and taking `W`.
(Python raises on a zero step, so the guard returns no windows for `W = 0`.) -/
def chunks {α : Type} (W : ℕ) (l : List α) : List (List α) :=
  if W = 0 then []
  else (List.range ((l.length + W - 1) / W)).map (fun k => (l.drop (k * W)).take W)

/-- `series.mean()`: arithmetic mean of a list of values. -/
def mean (vs : List ℚ) : ℚ := vs.sum / (vs.length : ℚ)

/-- The `grouped` data frame built by `generate_row_group_density`:
walk the sorted rows in steps of `rows_per_group`, skip empty chunks,
record each chunk mean, then attach `group_index = range(len(group_means))`. -/
def generate_row_group_records (df : DataFrame) (rows_per_group : ℕ) : List (ℕ × ℚ) :=
  let sorted := sortIndex df.rows
  let group_means := (chunks rows_per_group sorted).filterMap
    (fun chunk => if chunk.length = 0 then none else some (mean (chunk.map Row.value)))
  group_means.enum

/-- One line of `grouped.to_csv(index=False)` per record. -/
def groupedCsvLines (grouped : List (ℕ × ℚ)) : List String :=
  "group_index,group_mean" :: grouped.map (fun p => toString p.1 ++ "," ++ toString p.2)

/-- `grouped.to_csv(index=False)` as one byte string (newline-terminated lines). -/
def groupedCsv (grouped : List (ℕ × ℚ)) : String :=
  String.join ((groupedCsvLines grouped).map (fun line => line ++ "\n"))

/-- The plotting stack, abstracted: from the title, the x-axis label and
the `group_mean` column to PNG bytes. -/
def Renderer : Type := String → String → List ℚ → String

/-- `generate_row_group_density(df, value_col, title, xlabel, rows_per_group)`:
returns `(csv_buffer.getvalue(), png_buffer.getvalue())`.  The PNG buffer
stays empty when `grouped` is empty (the `if not grouped.empty` guard). -/
def generate_row_group_density (renderer : Renderer) (df : DataFrame)
    (title xlabel : String) (rows_per_group : ℕ) : String × String :=
  let grouped := generate_row_group_records df rows_per_group
  (groupedCsv grouped,
   if grouped.isEmpty then "" else renderer title xlabel (grouped.map Prod.snd))

/-- `alp_codes` from `process_alp`. -/
def alp_codes : List String := ["109532-2", "1783-0", "59164-4", "16337-8"]

/-- `ldl_codes` from `process_ldl`. -/
def ldl_codes : List String := ["13457-7", "53133-5", "96258-9", "69419-0"]

/-- `process_alp(df, value_col)`. -/
def process_alp (renderer : Renderer) (df : DataFrame) : String × String :=
  generate_row_group_density renderer (filter_lab_data df alp_codes)
    "ALP Grouped Mean Density" "Mean ALP value (mmol/L, per 10 rows)" 10

/-- `process_ldl(df, value_col)`. -/
def process_ldl (renderer : Renderer) (df : DataFrame) : String × String :=
  generate_row_group_density renderer (filter_lab_data df ldl_codes)
    "LDL Grouped Mean Density" "Mean LDL value (U/L, per 10 rows)" 10

/-- `create_zip_output(df, zip_path)`: the archive as the ordered list of
`(entry name, entry bytes)` pairs written by the four `zf.writestr` calls. -/
def create_zip_output (renderer : Renderer) (df : DataFrame) : List (String × String) :=
  let alp := process_alp renderer df
  let ldl := process_ldl renderer df
  [("alp_counts_synth.csv", alp.1),
   ("alp_density_synth.png", alp.2),
   ("ldl_counts_synth.csv", ldl.1),
   ("ldl_density_synth.png", ldl.2)]

/-- Whether `suffix` is a suffix of `s`, computed on the character lists. -/
def strEndsWith (s suffix : String) : Bool :=
  decide (s.data.drop (s.data.length - suffix.data.length) = suffix.data)

/-- The CSV entries of an archive (the names ending in `.csv`). -/
def csvEntries (entries : List (String × String)) : List (String × String) :=
  entries.filter (fun e => strEndsWith e.1 ".csv")

/-- The empty data frame, used as the out-of-range default of the heap model. -/
def emptyDF : DataFrame := { cols := [], rows := [] }

/-- Heap model of `filter_lab_data`'s `.copy()`: data frames live in a
store (list of tables, addressed by position); the operation reads the
table at address `i`, allocates a fresh filtered copy at the end of the
store, and returns the new store with the fresh address. -/
def filter_lab_data_heap (s : List DataFrame) (i : ℕ) (codes : List String) :
    List DataFrame × ℕ :=
  (s ++ [filter_lab_data (s.getD i emptyDF) codes], s.length)

/-! Concrete example data used by the witnesses. -/

/-- 25 ALP-coded rows with positive values 1, 2, ..., 25 in index order. -/
def rows25 : List Row :=
  (List.range 25).map (fun i => { idx := i, code := "109532-2", value := (i : ℚ) + 1, rest := [] })

/-- A single ALP-coded row with value 7. -/
def rowEx : Row := { idx := 0, code := "109532-2", value := 7, rest := [] }

/-- A three-row example frame: two ALP rows (one with a non-positive
value) and one row with a foreign code. -/
def dfEx : DataFrame :=
  { cols := ["Observation.code", "Observation.value"]
    rows := [rowEx,
             { idx := 1, code := "109532-2", value := -2, rest := [] },
             { idx := 2, code := "2345-7", value := 3, rest := [] }] }

/-- A renderer oracle used by the witnesses. -/
def rendererEx : Renderer := fun _ _ means => toString means.length

/-! Helper lemmas about the window decomposition. -/

/-- There are no windows over an empty frame. -/
theorem chunks_nil {α : Type} (W : ℕ) : chunks W ([] : List α) = [] := by
  unfold chunks
  rcases Nat.eq_zero_or_pos W with h | h
  · simp [h]
  · rw [if_neg (by omega)]
    simp [Nat.div_eq_of_lt (by omega : W - 1 < W)]

/-- Unfolding step of the window decomposition: the first window is the
first `W` rows and the remaining windows cover the rest. -/
theorem chunks_cons {α : Type} {W : ℕ} (hW : 0 < W) (l : List α) (hl : l ≠ []) :
    chunks W l = l.take W :: chunks W (l.drop W) := by
  have hn : 0 < l.length := List.length_pos.mpr hl
  unfold chunks
  rw [if_neg (by omega), if_neg (by omega)]
  have hcount : (l.length + W - 1) / W = ((l.drop W).length + W - 1) / W + 1 := by
    rw [List.length_drop]
    have h1 : l.length + W - 1 = (l.length - 1) + W := by omega
    rw [h1, Nat.add_div_right _ hW]
    congr 1
    rcases le_or_lt W l.length with h | h
    · congr 1
      omega
    · have e1 : l.length - W = 0 := by omega
      rw [e1, Nat.div_eq_of_lt (by omega), Nat.div_eq_of_lt (by omega)]
  rw [hcount, List.range_succ_eq_map, List.map_cons, List.map_map]
  congr 1
  · simp
  · apply List.map_congr_left
    intro k _
    show (l.drop (Nat.succ k * W)).take W = ((l.drop W).drop (k * W)).take W
    rw [List.drop_drop]
    congr 1
    rw [Nat.succ_mul, Nat.add_comm]

/-- The number of windows is the ceiling of `length / W` (in the natural
number form `(length + W - 1) / W`). -/
theorem chunks_length {α : Type} {W : ℕ} (hW : 0 < W) (l : List α) :
    (chunks W l).length = (l.length + W - 1) / W := by
  unfold chunks
  rw [if_neg (by omega)]
  simp

/-- The windows concatenate back to the frame: they cover every row
exactly once, in order — no overlap and no gap. -/
theorem chunks_flatten {α : Type} {W : ℕ} (hW : 0 < W) (l : List α) :
    (chunks W l).flatten = l := by
  rcases eq_or_ne l [] with rfl | h
  · simp [chunks_nil]
  · rw [chunks_cons hW l h]
    have ih := chunks_flatten hW (l.drop W)
    rw [List.flatten_cons, ih, List.take_append_drop]
termination_by l.length
decreasing_by
  simp only [List.length_drop]
  have := List.length_pos.mpr h
  omega

/-- Every window is non-empty and holds at most `W` rows. -/
theorem mem_chunks {α : Type} {W : ℕ} (hW : 0 < W) {l c : List α} (hc : c ∈ chunks W l) :
    c ≠ [] ∧ c.length ≤ W := by
  unfold chunks at hc
  rw [if_neg (by omega)] at hc
  obtain ⟨k, hk, rfl⟩ := List.mem_map.mp hc
  have hk2 : k < (l.length + W - 1) / W := List.mem_range.mp hk
  have hq : ((l.length + W - 1) / W) * W ≤ l.length + W - 1 := Nat.div_mul_le_self _ _
  have hmul : (k + 1) * W ≤ ((l.length + W - 1) / W) * W := Nat.mul_le_mul_right W hk2
  have hlt : k * W < l.length := by
    have h1 : (k + 1) * W = k * W + W := by rw [Nat.succ_mul]
    omega
  constructor
  · have hlen : 0 < ((l.drop (k * W)).take W).length := by
      rw [List.length_take, List.length_drop]
      omega
    exact List.ne_nil_of_length_pos hlen
  · exact List.length_take_le _ _

/-- Rows of a window are rows of the frame. -/
theorem mem_of_mem_chunks {α : Type} {W : ℕ} (hW : 0 < W) {l c : List α}
    (hc : c ∈ chunks W l) {x : α} (hx : x ∈ c) : x ∈ l := by
  rw [← chunks_flatten hW l]
  exact List.mem_flatten.mpr ⟨c, hc, hx⟩

/-- The `if len(chunk) == 0: continue` guard is inert on a list of
non-empty chunks. -/
theorem filterMap_guard_eq_map {α β : Type} (f : List α → β) (L : List (List α))
    (h : ∀ c ∈ L, c ≠ []) :
    L.filterMap (fun c => if c.length = 0 then none else some (f c)) = L.map f := by
  induction L with
  | nil => rfl
  | cons c L ih =>
    have hc : ¬ c.length = 0 := by
      simpa [List.length_eq_zero] using h c (List.mem_cons_self c L)
    simp only [List.filterMap_cons, if_neg hc, List.map_cons]
    rw [ih (fun d hd => h d (List.mem_cons_of_mem _ hd))]

/-- Closed form of the aggregate records: the enumerated list of the
window means (the empty-chunk guard never fires for `W > 0`). -/
theorem generate_row_group_records_eq (df : DataFrame) (W : ℕ) (hW : 0 < W) :
    generate_row_group_records df W =
      ((chunks W (sortIndex df.rows)).map (fun c => mean (c.map Row.value))).enum := by
  show ((chunks W (sortIndex df.rows)).filterMap
      (fun chunk => if chunk.length = 0 then none else some (mean (chunk.map Row.value)))).enum = _
  rw [filterMap_guard_eq_map]
  intro c hc
  exact (mem_chunks hW hc).1

/-- No rows, no aggregate records (for any window size). -/
theorem records_of_nil_rows (df : DataFrame) (W : ℕ) (h : df.rows = []) :
    generate_row_group_records df W = [] := by
  show ((chunks W (sortIndex df.rows)).filterMap
      (fun chunk => if chunk.length = 0 then none else some (mean (chunk.map Row.value)))).enum = _
  rw [h]
  simp [sortIndex, chunks_nil]

/-- Rows surviving `filter_lab_data` come from the input and satisfy
both filter conditions. -/
theorem filter_rows_mem {df : DataFrame} {codes : List String} {r : Row}
    (hr : r ∈ (filter_lab_data df codes).rows) :
    r ∈ df.rows ∧ r.code ∈ codes ∧ 0 < r.value := by
  simp only [filter_lab_data, List.mem_filter, decide_eq_true_eq] at hr
  exact ⟨hr.1.1, hr.1.2, hr.2⟩

/-- The arithmetic mean of finitely many positive rationals is positive. -/
theorem mean_pos {vs : List ℚ} (hne : vs ≠ []) (hpos : ∀ v ∈ vs, 0 < v) : 0 < mean vs := by
  unfold mean
  apply div_pos (List.sum_pos vs hpos hne)
  exact_mod_cast List.length_pos.mpr hne

/-! The claims. -/

/-- Claim C1: for every filtered table (rows in index order) of length N
and every window size W > 0, the chunked-mean aggregator produces
exactly `ceil(N / W)` records (`(N + W - 1) / W` in natural-number
arithmetic, 0 when N = 0); their `group_index` values are the 0-based
sequential window positions; their `group_mean` values are the
arithmetic means of the value column over the windows; and the windows
partition the input rows in order with no overlap and no gap (they
concatenate back to the input, each is non-empty and has at most W
rows). -/
theorem generate_row_group_density_policyA (rows : List Row) (cols : List String) (W : ℕ)
    (hW : 0 < W) (hsorted : List.Sorted (fun a b : Row => a.idx ≤ b.idx) rows) :
    (generate_row_group_records { cols := cols, rows := rows } W).length =
      (rows.length + W - 1) / W ∧
    (generate_row_group_records { cols := cols, rows := rows } W).map Prod.fst =
      List.range ((generate_row_group_records { cols := cols, rows := rows } W).length) ∧
    (generate_row_group_records { cols := cols, rows := rows } W).map Prod.snd =
      (chunks W rows).map (fun c => mean (c.map Row.value)) ∧
    (chunks W rows).flatten = rows ∧
    (∀ c ∈ chunks W rows, c ≠ [] ∧ c.length ≤ W) := by
  have hs : sortIndex rows = rows := List.Sorted.insertionSort_eq hsorted
  rw [generate_row_group_records_eq _ W hW]
  rw [show (DataFrame.mk cols rows).rows = rows from rfl, hs]
  refine ⟨?_, ?_, ?_, chunks_flatten hW rows, fun c hc => mem_chunks hW hc⟩
  · rw [List.enum_length, List.length_map, chunks_length hW]
  · rw [List.enum_map_fst, List.enum_length]
  · rw [List.enum_map_snd]

/-- Witness for C1 at the spec's example: 25 ALP-coded positive rows and
window size 10 give 3 records with group indices 0, 1, 2, the last
window holding only 5 rows. -/
theorem generate_row_group_density_policyA_witness :
    ((0 : ℕ) < 10 ∧ List.Sorted (fun a b : Row => a.idx ≤ b.idx) rows25) ∧
    ((generate_row_group_records { cols := [], rows := rows25 } 10).length =
      (rows25.length + 10 - 1) / 10 ∧
    (generate_row_group_records { cols := [], rows := rows25 } 10).map Prod.fst =
      List.range ((generate_row_group_records { cols := [], rows := rows25 } 10).length) ∧
    (generate_row_group_records { cols := [], rows := rows25 } 10).map Prod.snd =
      (chunks 10 rows25).map (fun c => mean (c.map Row.value)) ∧
    (chunks 10 rows25).flatten = rows25 ∧
    (∀ c ∈ chunks 10 rows25, c ≠ [] ∧ c.length ≤ 10)) ∧
    (generate_row_group_records { cols := [], rows := rows25 } 10).map Prod.fst = [0, 1, 2] ∧
    ((chunks 10 rows25).getLast?).map List.length = some 5 :=
  ⟨⟨by decide, by decide⟩,
   generate_row_group_density_policyA rows25 [] 10 (by decide) (by decide),
   by decide, by decide⟩

/-- Claim C2: for every input table and accepted code set, the filter's
output rows form a sublist of the input rows (hence a subset), and every
output row has its code in the accepted set and a strictly positive
value. -/
theorem filter_lab_data_sound (df : DataFrame) (codes : List String) :
    List.Sublist (filter_lab_data df codes).rows df.rows ∧
    ∀ r ∈ (filter_lab_data df codes).rows, r.code ∈ codes ∧ 0 < r.value := by
  constructor
  · exact (List.filter_sublist _).trans (List.filter_sublist _)
  · intro r hr
    exact (filter_rows_mem hr).2

/-- Witness for C2: the surviving row of the example frame is ALP-coded
with positive value. -/
theorem filter_lab_data_sound_witness : rowEx.code ∈ alp_codes ∧ 0 < rowEx.value :=
  (filter_lab_data_sound dfEx alp_codes).2 rowEx (by decide)

/-- Claim C5: for every input table the filter keeps the column set,
keeps the surviving rows in their input relative order (sublist), and
returns an empty table — not an error — when no row matches. -/
theorem filter_lab_data_shape (df : DataFrame) (codes : List String) :
    (filter_lab_data df codes).cols = df.cols ∧
    List.Sublist (filter_lab_data df codes).rows df.rows ∧
    ((∀ r ∈ df.rows, ¬(r.code ∈ codes ∧ 0 < r.value)) → (filter_lab_data df codes).rows = []) := by
  refine ⟨rfl, (List.filter_sublist _).trans (List.filter_sublist _), fun h => ?_⟩
  apply List.eq_nil_iff_forall_not_mem.mpr
  intro r hr
  have hm := filter_rows_mem hr
  exact h r hm.1 ⟨hm.2.1, hm.2.2⟩

/-- Witness for C5: no row of the example frame matches the LDL codes,
so the LDL filter result is empty. -/
theorem filter_lab_data_shape_witness : (filter_lab_data dfEx ldl_codes).rows = [] :=
  (filter_lab_data_shape dfEx ldl_codes).2.2 (by decide)

/-- Counterexample to C3 as stated: the four archive entries are not
named `{category}_counts.csv` and `{category}_density.png` — the code
writes `{category}_counts_synth.csv` and `{category}_density_synth.png`. -/
theorem create_zip_output_names_counterexample :
    ¬ ((create_zip_output rendererEx dfEx).map Prod.fst =
        ["alp_counts.csv", "alp_density.png", "ldl_counts.csv", "ldl_density.png"]) := by
  decide

/-- Claim C3 (amended): for every run the output archive contains
exactly the four entries `alp_counts_synth.csv`, `alp_density_synth.png`,
`ldl_counts_synth.csv`, `ldl_density_synth.png`, in that order, and both
entries of a category are written even when its aggregate is empty, the
image entry then holding zero bytes. -/
theorem create_zip_output_entries (renderer : Renderer) (df : DataFrame) :
    (create_zip_output renderer df).map Prod.fst =
      ["alp_counts_synth.csv", "alp_density_synth.png",
       "ldl_counts_synth.csv", "ldl_density_synth.png"] ∧
    ((filter_lab_data df alp_codes).rows = [] →
      (create_zip_output renderer df)[1]? = some ("alp_density_synth.png", "")) ∧
    ((filter_lab_data df ldl_codes).rows = [] →
      (create_zip_output renderer df)[3]? = some ("ldl_density_synth.png", "")) := by
  refine ⟨rfl, fun h => ?_, fun h => ?_⟩
  · have hrec := records_of_nil_rows (filter_lab_data df alp_codes) 10 h
    simp [create_zip_output, process_alp, process_ldl, generate_row_group_density, hrec]
  · have hrec := records_of_nil_rows (filter_lab_data df ldl_codes) 10 h
    simp [create_zip_output, process_alp, process_ldl, generate_row_group_density, hrec]

/-- Witness for C3 (amended) on the empty frame: both aggregates are
empty, yet all four entries are present and the image entries hold zero
bytes. -/
theorem create_zip_output_entries_witness :
    (create_zip_output rendererEx emptyDF).map Prod.fst =
      ["alp_counts_synth.csv", "alp_density_synth.png",
       "ldl_counts_synth.csv", "ldl_density_synth.png"] ∧
    (create_zip_output rendererEx emptyDF)[1]? = some ("alp_density_synth.png", "") ∧
    (create_zip_output rendererEx emptyDF)[3]? = some ("ldl_density_synth.png", "") :=
  ⟨(create_zip_output_entries rendererEx emptyDF).1,
   (create_zip_output_entries rendererEx emptyDF).2.1 (by decide),
   (create_zip_output_entries rendererEx emptyDF).2.2 (by decide)⟩

/-- Claim C4: when the filtered input of a category is empty, the
aggregator yields zero records rather than an error, the CSV holds the
header line only, the image is zero bytes rather than a failure, and the
run still completes with its four archive entries. -/
theorem empty_filtered_category_behaviour (renderer : Renderer) (df : DataFrame)
    (codes : List String) (title xlabel : String)
    (h : (filter_lab_data df codes).rows = []) :
    generate_row_group_records (filter_lab_data df codes) 10 = [] ∧
    (generate_row_group_density renderer (filter_lab_data df codes) title xlabel 10).1 =
      "group_index,group_mean\n" ∧
    (generate_row_group_density renderer (filter_lab_data df codes) title xlabel 10).2 = "" ∧
    (create_zip_output renderer df).length = 4 := by
  have hrec := records_of_nil_rows (filter_lab_data df codes) 10 h
  refine ⟨hrec, ?_, ?_, rfl⟩
  · show groupedCsv (generate_row_group_records (filter_lab_data df codes) 10) = _
    rw [hrec]
    decide
  · simp [generate_row_group_density, hrec]

/-- Witness for C4: the example frame has no LDL-coded row. -/
theorem empty_filtered_category_behaviour_witness :
    generate_row_group_records (filter_lab_data dfEx ldl_codes) 10 = [] ∧
    (generate_row_group_density rendererEx (filter_lab_data dfEx ldl_codes) "t" "x" 10).1 =
      "group_index,group_mean\n" ∧
    (generate_row_group_density rendererEx (filter_lab_data dfEx ldl_codes) "t" "x" 10).2 = "" ∧
    (create_zip_output rendererEx dfEx).length = 4 :=
  empty_filtered_category_behaviour rendererEx dfEx ldl_codes "t" "x" (by decide)

/-- Claim C6: two runs of the pipeline on the same input frame produce
byte-identical CSV archive entries, whatever the rendering stack does —
the CSV entries do not depend on the renderer oracle at all. -/
theorem csv_entries_run_deterministic (renderer1 renderer2 : Renderer) (df : DataFrame) :
    csvEntries (create_zip_output renderer1 df) = csvEntries (create_zip_output renderer2 df) :=
  rfl

/-- Claim C7: the ALP pipeline filters with exactly the codes 109532-2,
1783-0, 59164-4, 16337-8 and the LDL pipeline with exactly 13457-7,
53133-5, 96258-9, 69419-0. -/
theorem pipeline_code_sets (renderer : Renderer) (df : DataFrame) :
    alp_codes = ["109532-2", "1783-0", "59164-4", "16337-8"] ∧
    ldl_codes = ["13457-7", "53133-5", "96258-9", "69419-0"] ∧
    process_alp renderer df =
      generate_row_group_density renderer
        (filter_lab_data df ["109532-2", "1783-0", "59164-4", "16337-8"])
        "ALP Grouped Mean Density" "Mean ALP value (mmol/L, per 10 rows)" 10 ∧
    process_ldl renderer df =
      generate_row_group_density renderer
        (filter_lab_data df ["13457-7", "53133-5", "96258-9", "69419-0"])
        "LDL Grouped Mean Density" "Mean LDL value (U/L, per 10 rows)" 10 :=
  ⟨rfl, rfl, rfl, rfl⟩

/-- Claim C9: in the heap model of `.copy()`, filtering allocates a
fresh table and leaves every pre-existing table — in particular the
input table — unchanged; the fresh address holds the filtered copy. -/
theorem filter_lab_data_heap_frame (s : List DataFrame) (i : ℕ) (codes : List String) :
    ((filter_lab_data_heap s i codes).1).take s.length = s ∧
    ((filter_lab_data_heap s i codes).1)[(filter_lab_data_heap s i codes).2]? =
      some (filter_lab_data (s.getD i emptyDF) codes) := by
  refine ⟨?_, ?_⟩
  · exact List.take_left s _
  · exact List.getElem?_concat_length s _

/-- Claim C10: every `group_mean` record produced downstream of the
filter is strictly positive: windows are non-empty, filtered values are
positive, and the mean of positive values is positive. -/
theorem pipeline_group_means_pos (df : DataFrame) (codes : List String) (W : ℕ) (hW : 0 < W) :
    ∀ p ∈ generate_row_group_records (filter_lab_data df codes) W, 0 < p.2 := by
  intro p hp
  rw [generate_row_group_records_eq _ W hW] at hp
  have h2 : p.2 ∈ (chunks W (sortIndex (filter_lab_data df codes).rows)).map
      (fun c => mean (c.map Row.value)) := by
    have hmem := List.mem_map_of_mem Prod.snd hp
    rwa [List.enum_map_snd] at hmem
  obtain ⟨c, hc, hceq⟩ := List.mem_map.mp h2
  rw [← hceq]
  have hcne : c ≠ [] := (mem_chunks hW hc).1
  apply mean_pos
  · simpa [List.map_eq_nil_iff] using hcne
  · intro v hv
    obtain ⟨r, hr, hrv⟩ := List.mem_map.mp hv
    have hrs : r ∈ sortIndex (filter_lab_data df codes).rows := mem_of_mem_chunks hW hc hr
    have hperm := List.perm_insertionSort (fun a b : Row => a.idx ≤ b.idx)
      (filter_lab_data df codes).rows
    have hrf : r ∈ (filter_lab_data df codes).rows := hperm.mem_iff.mp hrs
    rw [← hrv]
    exact (filter_rows_mem hrf).2.2

/-- Witness for C10: the single ALP record of the example frame has a
positive mean. -/
theorem pipeline_group_means_pos_witness : (0 : ℚ) < ((0 : ℕ), (7 : ℚ)).2 :=
  pipeline_group_means_pos dfEx alp_codes 10 (by decide) ((0 : ℕ), (7 : ℚ)) (by
    norm_num [generate_row_group_records, filter_lab_data, sortIndex, chunks, mean, dfEx,
      rowEx, alp_codes, List.insertionSort, List.orderedInsert, List.range_succ,
      List.filterMap_cons, List.enum, List.enumFrom])

end LabValues
